import Mathlib

/-
Verification development for the api_yamdb review-aggregation service.
The Django models (reviews/models.py), the view layer (api/views.py), the
URL routing (api/urls.py) and the settings constants (settings.py) are
shallowly embedded below: rows of each model become Lean structures, the
database becomes explicit lists of rows, and each endpoint becomes a pure
function from the store and the request data to the new store and a
response.  External collaborators (email delivery, JWT issuance, the token
generator) are passed in as explicit arguments.
-/

/- Role constants from api_yamdb/settings.py. -/

def MODERATOR : String := "moderator"

def USER : String := "user"

def ADMIN : String := "admin"

/-- User row, from reviews/models.py class User(AbstractUser).
confirmation_code has model default "not defined yet"; role defaults to
USER; is_superuser and is_staff come from AbstractUser. -/
structure User where
  id : Nat
  username : String
  email : String
  role : String
  is_superuser : Bool
  is_staff : Bool
  confirmation_code : String
deriving DecidableEq, Repr

/-- Property is_admin from reviews/models.py: role == admin, or the
superuser or staff flag. -/
def User.is_admin (u : User) : Bool :=
  u.role == ADMIN || u.is_superuser || u.is_staff

/-- Property is_moderator from reviews/models.py: role == moderator. -/
def User.is_moderator (u : User) : Bool :=
  u.role == MODERATOR

/-- Django User.objects.get_or_create(username=..., email=...): return the
stored user matching both fields if present, otherwise append a freshly
created row with the model field defaults (role USER, no flags,
confirmation_code "not defined yet").  Returns the store, the instance and
the created flag, as the Django call does. -/
def getOrCreateUser (users : List User) (nextId : Nat) (username email : String) :
    List User × User × Bool :=
  match users.find? (fun u => u.username == username && u.email == email) with
  | some u => (users, u, false)
  | none =>
      let u : User :=
        { id := nextId, username := username, email := email,
          role := USER, is_superuser := false, is_staff := false,
          confirmation_code := "not defined yet" }
      (users ++ [u], u, true)

/-- Result of the signup endpoint: the user store after the call, the
confirmation code put in the outgoing email, and the HTTP status. -/
structure SignupResponse where
  users : List User
  emailedCode : String
  status : Nat
deriving DecidableEq, Repr

/-- UserCreation.post from api/views.py: get_or_create the user by
(username, email), assign the token generator output to the in-memory
instance attribute confirmation_code, and email that attribute.  The view
never calls save() on the instance after the assignment, so the store is
returned exactly as get_or_create left it: the assigned code is not
written back.  generatedCode stands for the external
default_token_generator.make_token output. -/
def signup (users : List User) (nextId : Nat) (username email generatedCode : String) :
    SignupResponse :=
  let created := getOrCreateUser users nextId username email
  let signedUser : User := { created.2.1 with confirmation_code := generatedCode }
  { users := created.1, emailedCode := signedUser.confirmation_code, status := 200 }

/-- Response of the token endpoint, JWTTokenConfirmation.post: 404 from
get_object_or_404, 400 with the literal Russian message on mismatch, or
201 with the response dictionary. -/
inductive ConfirmResponse
  | notFound
  | badRequest (message : String)
  | created (body : List (String × String))
deriving DecidableEq, Repr

/-- JWTTokenConfirmation.post from api/views.py: look the user up by
username (get_object_or_404), compare the supplied code to the stored
confirmation_code with string equality, and on match answer 201 with the
access token under the dictionary key "JWT-Код".  issuedToken stands for
the external RefreshToken.for_user access token. -/
def confirm (users : List User) (username code issuedToken : String) : ConfirmResponse :=
  match users.find? (fun u => u.username == username) with
  | none => ConfirmResponse.notFound
  | some currentUser =>
      if code == currentUser.confirmation_code then
        ConfirmResponse.created [("JWT-Код", issuedToken)]
      else
        ConfirmResponse.badRequest "Неверный код-подтверждение!"

/-- C1: refuted by the code at a concrete input.  Two signup calls for
("bob", "bob@x.com") with generated codes "tok-1" and "tok-2" reuse the
same single user row (id 1), but the stored confirmation_code is still the
model default "not defined yet" after both calls, because UserCreation.post
never saves the assigned code.  Consequently confirming with either
generated code fails, where the claim expects each signup to persist its
new code and the second one to become the valid code. -/
theorem signup_code_not_persisted :
    (signup [] 1 "bob" "bob@x.com" "tok-1").emailedCode = "tok-1" ∧
    (signup (signup [] 1 "bob" "bob@x.com" "tok-1").users 2
        "bob" "bob@x.com" "tok-2").emailedCode = "tok-2" ∧
    (signup (signup [] 1 "bob" "bob@x.com" "tok-1").users 2
        "bob" "bob@x.com" "tok-2").users =
      [{ id := 1, username := "bob", email := "bob@x.com", role := USER,
         is_superuser := false, is_staff := false,
         confirmation_code := "not defined yet" }] ∧
    confirm (signup (signup [] 1 "bob" "bob@x.com" "tok-1").users 2
        "bob" "bob@x.com" "tok-2").users "bob" "tok-1" "jwt" =
      ConfirmResponse.badRequest "Неверный код-подтверждение!" ∧
    confirm (signup (signup [] 1 "bob" "bob@x.com" "tok-1").users 2
        "bob" "bob@x.com" "tok-2").users "bob" "tok-2" "jwt" =
      ConfirmResponse.badRequest "Неверный код-подтверждение!" := by
  decide

/-- Concrete user row used in closed statements below. -/
def bobUser : User :=
  { id := 1, username := "bob", email := "bob@x.com", role := USER,
    is_superuser := false, is_staff := false,
    confirmation_code := "not defined yet" }

/-- C2 counterexample: with the stored code supplied, the 201 body carries
the issued token under the key "JWT-Код"; a lookup of the key
"access_token" in that body finds nothing, refuting the claim as stated. -/
theorem confirm_no_access_token_key :
    confirm [bobUser] "bob" "not defined yet" "jwt" =
      ConfirmResponse.created [("JWT-Код", "jwt")] ∧
    List.lookup "access_token" [("JWT-Код", "jwt")] = (none : Option String) := by
  decide

/-- C2 amended: confirm(username, code) answers 404 when no stored user has
that username; when the user exists and the supplied code differs from the
stored confirmation_code it answers 400 with the literal message and no
token; when the codes are string-equal it answers 201 with a body holding
exactly one entry, the issued access token under the key "JWT-Код". -/
theorem confirm_spec (users : List User) (username code tok : String) :
    (users.find? (fun u => u.username == username) = none →
      confirm users username code tok = ConfirmResponse.notFound) ∧
    (∀ u, users.find? (fun u2 => u2.username == username) = some u →
      (code ≠ u.confirmation_code →
        confirm users username code tok =
          ConfirmResponse.badRequest "Неверный код-подтверждение!") ∧
      (code = u.confirmation_code →
        confirm users username code tok =
          ConfirmResponse.created [("JWT-Код", tok)])) := by
  refine ⟨fun hnone => ?_, fun u hu => ⟨fun hne => ?_, fun heq => ?_⟩⟩
  · unfold confirm
    rw [hnone]
  · unfold confirm
    rw [hu]
    simp [hne]
  · unfold confirm
    rw [hu]
    simp [heq]

/-- Witness for confirm_spec at a concrete store: the wrong code gets the
400 message and the stored code gets the 201 body. -/
theorem confirm_spec_witness :
    confirm [bobUser] "bob" "wrong" "jwt" =
      ConfirmResponse.badRequest "Неверный код-подтверждение!" ∧
    confirm [bobUser] "bob" "not defined yet" "jwt" =
      ConfirmResponse.created [("JWT-Код", "jwt")] :=
  ⟨((confirm_spec [bobUser] "bob" "wrong" "jwt").2 bobUser (by decide)).1 (by decide),
   ((confirm_spec [bobUser] "bob" "not defined yet" "jwt").2 bobUser (by decide)).2 rfl⟩

/-- C9: a stored user whose confirmation_code still holds the model default
"not defined yet" (reviews/models.py line 136) passes the string comparison
in JWTTokenConfirmation.post when exactly that literal is supplied, so the
endpoint answers 201 and issues an access token. -/
theorem default_code_confirms (users : List User) (u : User) (tok : String)
    (hfind : users.find? (fun v => v.username == u.username) = some u)
    (hdef : u.confirmation_code = "not defined yet") :
    confirm users u.username "not defined yet" tok =
      ConfirmResponse.created [("JWT-Код", tok)] := by
  unfold confirm
  rw [hfind]
  simp [hdef]

/-- Witness for default_code_confirms: the freshly created bob row confirms
with the default literal. -/
theorem default_code_confirms_witness :
    confirm [bobUser] "bob" "not defined yet" "jwt" =
      ConfirmResponse.created [("JWT-Код", "jwt")] :=
  default_code_confirms [bobUser] bobUser "jwt" (by decide) (by decide)

/- Content graph models, from reviews/models.py. -/

/-- Category row: NameSlug child from reviews/models.py. -/
structure Category where
  id : Nat
  name : String
  slug : String
deriving DecidableEq, Repr

/-- Genre row: NameSlug child from reviews/models.py. -/
structure Genre where
  id : Nat
  name : String
  slug : String
deriving DecidableEq, Repr

/-- Title row from reviews/models.py: category is an optional foreign key
with on_delete=SET_NULL; the genre links live in the GenreTitle join
rows. -/
structure Title where
  id : Nat
  name : String
  year : Nat
  description : Option String
  categoryId : Option Nat
deriving DecidableEq, Repr

/-- GenreTitle join row from reviews/models.py, cascade on either side. -/
structure GenreTitle where
  genreId : Nat
  titleId : Nat
deriving DecidableEq, Repr

/-- Review row from reviews/models.py (PublicAuthor child): author and
title foreign keys, text, score with validators 1..10, pub_date set at
creation. -/
structure Review where
  id : Nat
  titleId : Nat
  authorId : Nat
  text : String
  score : Int
  pub_date : Nat
deriving DecidableEq, Repr

/-- Comment row from reviews/models.py (PublicAuthor child): child of a
Review, cascade-deleted with it. -/
structure Comment where
  id : Nat
  reviewId : Nat
  authorId : Nat
  text : String
  pub_date : Nat
deriving DecidableEq, Repr

/-- Outcome of a write endpoint: ok, 404 from get_object_or_404, 400 from
serializer validation, or the conflict surfaced by the unique
(title, author) constraint. -/
inductive Outcome
  | ok
  | notFound
  | badRequest
  | conflict
deriving DecidableEq, Repr

/-- Score validators from reviews/models.py Review.score:
MinValueValidator 1 and MaxValueValidator 10, inclusive. -/
def validScore (s : Int) : Bool :=
  decide (1 ≤ s) && decide (s ≤ 10)

/-- Creation of a review row: the serializer validators run first (score
bounds), then the save hits the UniqueConstraint on (title, author) from
Review.Meta, which surfaces as a conflict and writes nothing; otherwise
the new row is appended with author and title bound from the request, as
ReviewViewSet.perform_create does.  Returns the store and the outcome. -/
def createReview (store : List Review) (titleId authorId : Nat) (txt : String)
    (score : Int) (newId pubDate : Nat) : List Review × Outcome :=
  if !(validScore score) then (store, Outcome.badRequest)
  else if store.any (fun r => r.titleId == titleId && r.authorId == authorId) then
    (store, Outcome.conflict)
  else
    (store ++ [{ id := newId, titleId := titleId, authorId := authorId,
                 text := txt, score := score, pub_date := pubDate }], Outcome.ok)

/-- Update (PATCH) of a review row: the score validators run, then the
text and score of the row with the given id are replaced; id, title,
author and pub_date are untouched (pub_date is auto_now_add, immutable). -/
def updateReview (store : List Review) (reviewId : Nat) (txt : String) (score : Int) :
    List Review × Outcome :=
  if !(validScore score) then (store, Outcome.badRequest)
  else if store.any (fun r => r.id == reviewId) then
    (store.map (fun r =>
      if r.id == reviewId then { r with text := txt, score := score } else r),
     Outcome.ok)
  else (store, Outcome.notFound)

/-- C4: the UniqueConstraint on (title, author) from Review.Meta.  After a
successful create for the pair (titleId, authorId), any second valid
create attempt for the same pair leaves the review store unchanged and
ends in conflict, while a PATCH of the stored review still succeeds. -/
theorem unique_review_conflict (store : List Review) (titleId authorId : Nat)
    (txt1 : String) (s1 : Int) (id1 pd1 : Nat)
    (hok : (createReview store titleId authorId txt1 s1 id1 pd1).2 = Outcome.ok) :
    ∀ txt2 : String, ∀ s2 : Int, ∀ id2 pd2 : Nat, validScore s2 = true →
      createReview (createReview store titleId authorId txt1 s1 id1 pd1).1
          titleId authorId txt2 s2 id2 pd2 =
        ((createReview store titleId authorId txt1 s1 id1 pd1).1, Outcome.conflict) ∧
      (updateReview (createReview store titleId authorId txt1 s1 id1 pd1).1
          id1 txt2 s2).2 = Outcome.ok := by
  intro txt2 s2 id2 pd2 hs2
  unfold createReview at hok ⊢
  by_cases hv : validScore s1
  · simp only [hv, Bool.not_true, Bool.false_eq_true, if_false] at hok ⊢
    by_cases hdup : store.any (fun r => r.titleId == titleId && r.authorId == authorId)
    · simp [hdup] at hok
    · simp only [hdup, Bool.false_eq_true, if_false] at hok ⊢
      constructor
      · simp [hs2, List.any_append]
      · unfold updateReview
        simp [hs2, List.any_append]
  · simp [hv] at hok

/-- Witness for unique_review_conflict at a concrete store: a second
review by author 7 for title 3 conflicts and the store keeps exactly the
first row, while the PATCH succeeds. -/
theorem unique_review_conflict_witness :
    createReview (createReview [] 3 7 "good" 8 1 100).1 3 7 "again" 5 2 200 =
      ([{ id := 1, titleId := 3, authorId := 7, text := "good", score := 8,
          pub_date := 100 }], Outcome.conflict) ∧
    (updateReview (createReview [] 3 7 "good" 8 1 100).1 1 "again" 5).2 =
      Outcome.ok :=
  unique_review_conflict [] 3 7 "good" 8 1 100 (by decide) "again" 5 2 200 (by decide)

/-- Every stored review score lies in the validator range 1..10. -/
def scoresValid (store : List Review) : Prop :=
  ∀ r ∈ store, 1 ≤ r.score ∧ r.score ≤ 10

/-- C6: the Review.score validators (MinValueValidator 1,
MaxValueValidator 10) from reviews/models.py.  A create or update with a
score outside 1..10 fails validation and writes nothing, and both
operations preserve the invariant that every stored score is in 1..10. -/
theorem review_score_bounds (store : List Review) (hstore : scoresValid store) :
    (∀ titleId authorId : Nat, ∀ txt : String, ∀ s : Int, ∀ newId pd : Nat,
      (s < 1 ∨ 10 < s) →
        createReview store titleId authorId txt s newId pd =
          (store, Outcome.badRequest)) ∧
    (∀ reviewId : Nat, ∀ txt : String, ∀ s : Int, (s < 1 ∨ 10 < s) →
        updateReview store reviewId txt s = (store, Outcome.badRequest)) ∧
    (∀ titleId authorId : Nat, ∀ txt : String, ∀ s : Int, ∀ newId pd : Nat,
        scoresValid (createReview store titleId authorId txt s newId pd).1) ∧
    (∀ reviewId : Nat, ∀ txt : String, ∀ s : Int,
        scoresValid (updateReview store reviewId txt s).1) := by
  have hbad : ∀ s : Int, (s < 1 ∨ 10 < s) → validScore s = false := by
    intro s hs
    unfold validScore
    rcases hs with h | h
    · simp [not_le.mpr h]
    · simp [not_le.mpr h]
  refine ⟨?_, ?_, ?_, ?_⟩
  · intro titleId authorId txt s newId pd hs
    unfold createReview
    simp [hbad s hs]
  · intro reviewId txt s hs
    unfold updateReview
    simp [hbad s hs]
  · intro titleId authorId txt s newId pd
    unfold createReview
    by_cases hv : validScore s
    · have hrange : 1 ≤ s ∧ s ≤ 10 := by
        unfold validScore at hv
        constructor
        · exact of_decide_eq_true (Bool.and_elim_left hv)
        · exact of_decide_eq_true (Bool.and_elim_right hv)
      by_cases hdup : store.any (fun r => r.titleId == titleId && r.authorId == authorId)
      · simpa [hv, hdup] using hstore
      · simp only [hv, Bool.not_true, Bool.false_eq_true, if_false, hdup]
        intro r hr
        rcases List.mem_append.mp hr with hin | hnew
        · exact hstore r hin
        · rcases List.mem_singleton.mp hnew with rfl
          exact hrange
    · simpa [hv] using hstore
  · intro reviewId txt s
    unfold updateReview
    by_cases hv : validScore s
    · have hrange : 1 ≤ s ∧ s ≤ 10 := by
        unfold validScore at hv
        constructor
        · exact of_decide_eq_true (Bool.and_elim_left hv)
        · exact of_decide_eq_true (Bool.and_elim_right hv)
      by_cases hex : store.any (fun r => r.id == reviewId)
      · simp only [hv, Bool.not_true, Bool.false_eq_true, if_false, hex, if_true]
        intro r hr
        rcases List.mem_map.mp hr with ⟨r0, hr0, hmap⟩
        by_cases hid : (r0.id == reviewId) = true
        · rw [if_pos hid] at hmap
          rw [← hmap]
          exact hrange
        · rw [if_neg hid] at hmap
          rw [← hmap]
          exact hstore r0 hr0
      · simpa [hv, hex] using hstore
    · simpa [hv] using hstore

/-- Concrete review row used in closed statements below. -/
def goodReview : Review :=
  { id := 1, titleId := 3, authorId := 7, text := "good", score := 8,
    pub_date := 100 }

/-- Witness for review_score_bounds on a concrete valid store: score 0 is
rejected by create and update, and the store stays as it was. -/
theorem review_score_bounds_witness :
    createReview [goodReview] 3 9 "bad" 0 2 200 =
      ([goodReview], Outcome.badRequest) ∧
    updateReview [goodReview] 1 "bad" 0 = ([goodReview], Outcome.badRequest) := by
  have hs : scoresValid [goodReview] := by
    intro r hr
    rcases List.mem_singleton.mp hr with rfl
    exact ⟨by norm_num [goodReview], by norm_num [goodReview]⟩
  exact ⟨(review_score_bounds _ hs).1 3 9 "bad" 0 2 200 (Or.inl (by norm_num)),
         (review_score_bounds _ hs).2.1 1 "bad" 0 (Or.inl (by norm_num))⟩

/-- Whole content store: one list per model. -/
structure ContentState where
  categories : List Category
  genres : List Genre
  titles : List Title
  genre_titles : List GenreTitle
  reviews : List Review
deriving DecidableEq, Repr

/-- Django deletion of a Category row: the row is removed, and
on_delete=SET_NULL on Title.category (reviews/models.py lines 66-72) sets
the category reference of every title that pointed at it to null; genres,
genre-title links and reviews are not touched. -/
def deleteCategory (s : ContentState) (catId : Nat) : ContentState :=
  { s with
    categories := s.categories.filter (fun c => !(c.id == catId)),
    titles := s.titles.map (fun t =>
      if t.categoryId = some catId then { t with categoryId := none } else t) }

/-- C7: deleting a category nullifies the category reference of the titles
that pointed to it, deletes no title, changes no other title field (name,
year, description, id), leaves genre links and every unrelated entity
unchanged, and keeps every other category. -/
theorem delete_category_set_null (s : ContentState) (catId : Nat) :
    (deleteCategory s catId).titles.length = s.titles.length ∧
    (∀ i : Nat, ∀ h1 : i < s.titles.length,
      ∀ h2 : i < (deleteCategory s catId).titles.length,
        (deleteCategory s catId).titles.get ⟨i, h2⟩ =
          (if (s.titles.get ⟨i, h1⟩).categoryId = some catId then
            { s.titles.get ⟨i, h1⟩ with categoryId := none }
          else s.titles.get ⟨i, h1⟩)) ∧
    (∀ t ∈ (deleteCategory s catId).titles, t.categoryId ≠ some catId) ∧
    (deleteCategory s catId).genres = s.genres ∧
    (deleteCategory s catId).genre_titles = s.genre_titles ∧
    (deleteCategory s catId).reviews = s.reviews ∧
    (∀ c ∈ s.categories, c.id ≠ catId → c ∈ (deleteCategory s catId).categories) ∧
    (∀ c ∈ (deleteCategory s catId).categories, c.id ≠ catId) := by
  refine ⟨by simp [deleteCategory], ?_, ?_, rfl, rfl, rfl, ?_, ?_⟩
  · intro i h1 h2
    simp [deleteCategory]
  · intro t ht
    rcases List.mem_map.mp ht with ⟨t0, _, hmap⟩
    by_cases hc : t0.categoryId = some catId
    · rw [if_pos hc] at hmap
      rw [← hmap]
      simp
    · rw [if_neg hc] at hmap
      rw [← hmap]
      exact hc
  · intro c hc hne
    refine List.mem_filter.mpr ⟨hc, ?_⟩
    simp [hne]
  · intro c hc
    have := (List.mem_filter.mp hc).2
    simpa using this

/-- Concrete content state used in closed statements below: one category
(id 5), one title pointing at it. -/
def smallContent : ContentState :=
  { categories := [{ id := 5, name := "films", slug := "films" }],
    genres := [],
    titles := [{ id := 1, name := "t", year := 2000,
                 description := none, categoryId := some 5 }],
    genre_titles := [], reviews := [] }

/-- Witness for delete_category_set_null at a concrete state: deleting
category 5 nullifies the reference of the title that pointed to it and
keeps its other fields. -/
theorem delete_category_set_null_witness :
    (deleteCategory smallContent 5).titles.get ⟨0, by decide⟩ =
      { id := 1, name := "t", year := 2000, description := none,
        categoryId := none } := by
  have h := (delete_category_set_null smallContent 5).2.1 0 (by decide) (by decide)
  simpa using h

/- Authorization policy.  The viewset wiring is read from api/views.py
(permission_classes on each viewset); the permission class bodies live in
api/permissions.py, which is not among the sources, so they are modelled
from the spec. -/

/-- Viewset action, following the router verbs: list and retrieve are the
safe (read) actions, create, update and delete are the unsafe ones. -/
inductive ViewAction
  | list
  | retrieve
  | create
  | update
  | delete
deriving DecidableEq, Repr

/-- Safe actions are the read-only ones (HTTP GET family). -/
def isSafe : ViewAction → Bool
  | ViewAction.list => true
  | ViewAction.retrieve => true
  | _ => false

/-- Resource a request addresses; review and comment rows carry their
author id, the only object attribute the policy consults. -/
inductive Resource
  | category
  | genre
  | title
  | review (authorId : Nat)
  | comment (authorId : Nat)
deriving DecidableEq, Repr

/-- Modelled from the spec: api/permissions.py is not among the sources.
IsAdminOrReadOnly (spec 4.1 rules 1 and 2): safe actions pass for anyone,
anything else needs an authenticated actor with is_admin.  The actor is
none when the request is anonymous. -/
def isAdminOrReadOnly (actor : Option User) (act : ViewAction) : Bool :=
  isSafe act ||
    match actor with
    | none => false
    | some u => u.is_admin

/-- Modelled from the spec: rest_framework IsAuthenticatedOrReadOnly (an
external collaborator): safe actions pass for anyone, anything else needs
an authenticated actor. -/
def isAuthenticatedOrReadOnly (actor : Option User) (act : ViewAction) : Bool :=
  isSafe act || actor.isSome

/-- Modelled from the spec: api/permissions.py is not among the sources.
IsAuthorOrModeratorOrReadOnly (spec 4.1 rule 3): safe actions pass for
anyone; an unsafe action on an owned object needs is_admin, is_moderator
or authorship. -/
def isAuthorOrModeratorOrReadOnly (actor : Option User) (act : ViewAction)
    (authorId : Nat) : Bool :=
  isSafe act ||
    match actor with
    | none => false
    | some u => u.is_admin || u.is_moderator || u.id == authorId

/-- The decision function canPerform of spec 4.1, wired as api/views.py
wires the permission classes: categories, genres and titles carry
IsAdminOrReadOnly; reviews and comments carry IsAuthenticatedOrReadOnly
together with IsAuthorOrModeratorOrReadOnly (both must pass). -/
def canPerform (actor : Option User) (act : ViewAction) (r : Resource) : Bool :=
  match r with
  | Resource.category => isAdminOrReadOnly actor act
  | Resource.genre => isAdminOrReadOnly actor act
  | Resource.title => isAdminOrReadOnly actor act
  | Resource.review aid =>
      isAuthenticatedOrReadOnly actor act && isAuthorOrModeratorOrReadOnly actor act aid
  | Resource.comment aid =>
      isAuthenticatedOrReadOnly actor act && isAuthorOrModeratorOrReadOnly actor act aid

/-- C3: the authorization decision.  Safe actions are allowed for every
actor, anonymous included; create and delete on a category, genre or
title are allowed only for an authenticated actor with is_admin; update
and delete on a review or comment are allowed exactly when the actor is
authenticated and is_admin, is_moderator or the author of the object. -/
theorem authorization_policy (actor : Option User) (act : ViewAction) (r : Resource) :
    (isSafe act = true → canPerform actor act r = true) ∧
    ((act = ViewAction.create ∨ act = ViewAction.delete) →
      (r = Resource.category ∨ r = Resource.genre ∨ r = Resource.title) →
      canPerform actor act r = true →
        ∃ u, actor = some u ∧ u.is_admin = true) ∧
    (∀ aid : Nat, (act = ViewAction.update ∨ act = ViewAction.delete) →
      (r = Resource.review aid ∨ r = Resource.comment aid) →
      (canPerform actor act r = true ↔
        ∃ u, actor = some u ∧
          (u.is_admin = true ∨ u.is_moderator = true ∨ u.id = aid))) := by
  refine ⟨fun hsafe => ?_, fun hact hr hcan => ?_, fun aid hact hr => ?_⟩
  · cases r <;> cases actor <;>
      simp [canPerform, isAdminOrReadOnly, isAuthenticatedOrReadOnly,
            isAuthorOrModeratorOrReadOnly, hsafe]
  · have hsafe : isSafe act = false := by rcases hact with rfl | rfl <;> rfl
    rcases hr with rfl | rfl | rfl
    all_goals
      cases actor with
      | none => simp [canPerform, isAdminOrReadOnly, hsafe] at hcan
      | some u =>
          refine ⟨u, rfl, ?_⟩
          simpa [canPerform, isAdminOrReadOnly, hsafe] using hcan
  · have hsafe : isSafe act = false := by rcases hact with rfl | rfl <;> rfl
    rcases hr with rfl | rfl
    all_goals
      cases actor with
      | none =>
          simp [canPerform, isAuthenticatedOrReadOnly,
                isAuthorOrModeratorOrReadOnly, hsafe]
      | some u =>
          simp only [canPerform, isAuthenticatedOrReadOnly,
                isAuthorOrModeratorOrReadOnly, hsafe, beq_iff_eq,
                Option.isSome_some, Bool.false_or, Bool.true_and,
                Bool.or_eq_true, Option.some.injEq, exists_eq_left, exists_eq_left']
          exact or_assoc

/-- Concrete admin user row used in closed statements below. -/
def aliceAdmin : User :=
  { id := 2, username := "alice", email := "a@x.com", role := ADMIN,
    is_superuser := false, is_staff := false,
    confirmation_code := "not defined yet" }

/-- Witness for authorization_policy: category deletion granted to the
concrete admin actor forces an authenticated admin. -/
theorem authorization_policy_witness :
    ∃ u, (some aliceAdmin : Option User) = some u ∧ u.is_admin = true :=
  (authorization_policy (some aliceAdmin) ViewAction.delete Resource.category).2.1
    (Or.inr rfl) (Or.inl rfl) (by decide)

/- Nested review and comment endpoints, api/views.py ReviewViewSet and
CommentViewSet. -/

/-- Response of a nested list endpoint: 404 from get_object_or_404 on the
parent, or the filtered rows. -/
inductive ListResponse (α : Type)
  | notFound
  | ok (items : List α)
deriving DecidableEq, Repr

/-- ReviewViewSet.get_queryset from api/views.py: get_object_or_404(Title,
id=title_id) first, then the reviews filtered by that title id; a missing
title is a 404, never an empty page. -/
def listReviews (titles : List Title) (reviews : List Review) (titleId : Nat) :
    ListResponse Review :=
  if titles.any (fun t => t.id == titleId) then
    ListResponse.ok (reviews.filter (fun r => r.titleId == titleId))
  else ListResponse.notFound

/-- ReviewViewSet.perform_create from api/views.py: get_object_or_404 on
the title happens before any write; with the title present the save binds
author and title id as createReview does. -/
def createReviewEndpoint (titles : List Title) (reviews : List Review)
    (titleId authorId : Nat) (txt : String) (score : Int) (newId pd : Nat) :
    List Review × Outcome :=
  if titles.any (fun t => t.id == titleId) then
    createReview reviews titleId authorId txt score newId pd
  else (reviews, Outcome.notFound)

/-- CommentViewSet.get_queryset from api/views.py: get_object_or_404(
Review, id=review_id) first, then the comments filtered by that review
id. -/
def listComments (reviews : List Review) (comments : List Comment)
    (reviewId : Nat) : ListResponse Comment :=
  if reviews.any (fun r => r.id == reviewId) then
    ListResponse.ok (comments.filter (fun c => c.reviewId == reviewId))
  else ListResponse.notFound

/-- CommentViewSet.perform_create from api/views.py: get_object_or_404 on
the review happens before any write; with the review present the new
comment row is appended with author and review id bound. -/
def createCommentEndpoint (reviews : List Review) (comments : List Comment)
    (reviewId authorId : Nat) (txt : String) (newId pd : Nat) :
    List Comment × Outcome :=
  if reviews.any (fun r => r.id == reviewId) then
    (comments ++ [{ id := newId, reviewId := reviewId, authorId := authorId,
                    text := txt, pub_date := pd }], Outcome.ok)
  else (comments, Outcome.notFound)

/-- C10: when no stored title has the requested title id, review list and
create answer 404 and write nothing (listing is not an empty page), and
when no stored review has the requested review id, comment list and
create answer 404 and write nothing. -/
theorem parent_not_found (titles : List Title) (reviews : List Review)
    (comments : List Comment) (tid rid : Nat)
    (htitle : ∀ t ∈ titles, t.id ≠ tid)
    (hreview : ∀ r ∈ reviews, r.id ≠ rid) :
    listReviews titles reviews tid = ListResponse.notFound ∧
    listReviews titles reviews tid ≠ ListResponse.ok [] ∧
    (∀ authorId : Nat, ∀ txt : String, ∀ score : Int, ∀ newId pd : Nat,
      createReviewEndpoint titles reviews tid authorId txt score newId pd =
        (reviews, Outcome.notFound)) ∧
    listComments reviews comments rid = ListResponse.notFound ∧
    listComments reviews comments rid ≠ ListResponse.ok [] ∧
    (∀ authorId : Nat, ∀ txt : String, ∀ newId pd : Nat,
      createCommentEndpoint reviews comments rid authorId txt newId pd =
        (comments, Outcome.notFound)) := by
  have h1 : titles.any (fun t => t.id == tid) = false := by
    rw [List.any_eq_false]
    intro t ht
    simpa using htitle t ht
  have h2 : reviews.any (fun r => r.id == rid) = false := by
    rw [List.any_eq_false]
    intro r hr
    simpa using hreview r hr
  refine ⟨?_, ?_, ?_, ?_, ?_, ?_⟩
  · unfold listReviews
    simp [h1]
  · unfold listReviews
    simp [h1]
  · intro authorId txt score newId pd
    unfold createReviewEndpoint
    simp [h1]
  · unfold listComments
    simp [h2]
  · unfold listComments
    simp [h2]
  · intro authorId txt newId pd
    unfold createCommentEndpoint
    simp [h2]

/-- Witness for parent_not_found: with one stored title (id 1) and no
reviews, title id 9 and review id 9 give 404 on both nested listings. -/
theorem parent_not_found_witness :
    listReviews [{ id := 1, name := "t", year := 2000, description := none,
                   categoryId := none }] [goodReview] 9 =
      ListResponse.notFound ∧
    listComments [goodReview] [] 9 = ListResponse.notFound := by
  have h := parent_not_found
    [{ id := 1, name := "t", year := 2000, description := none,
       categoryId := none }] [goodReview] [] 9 9
    (by intro t ht; fin_cases ht; decide)
    (by intro r hr; fin_cases hr; decide)
  exact ⟨h.1, h.2.2.2.1⟩

/-- Modelled from the spec: the rating computation lives in the title read
serializer (api/serializers.py, not among the sources).  Spec 4.4:
average_rating(title) = round(mean(score for each review where
review.title_id == title.id)), or none when zero such reviews exist; it is
computed from the review store handed in on every read, there is no
cached rating field anywhere in the state. -/
def average_rating (store : List Review) (titleId : Nat) : Option Int :=
  if (store.filter (fun r => r.titleId == titleId)).map (fun r => r.score) = [] then
    none
  else
    some (round
      ((((store.filter (fun r => r.titleId == titleId)).map
          (fun r => r.score)).sum : ℚ)
        / (((store.filter (fun r => r.titleId == titleId)).map
          (fun r => r.score)).length : ℚ)))

/-- C5: the aggregate rating.  It is absent exactly when no review of the
title exists; with at least one review it equals the rounded mean of the
scores of exactly the reviews whose title id matches; and it is
recomputed from the store on each read, so a read after a successful
review creation sees the aggregate of the extended store. -/
theorem average_rating_spec (store : List Review) (tid : Nat) :
    (average_rating store tid = none ↔ ∀ r ∈ store, r.titleId ≠ tid) ∧
    ((∃ r ∈ store, r.titleId = tid) →
      average_rating store tid =
        some (round
          ((((store.filter (fun r => r.titleId == tid)).map
              (fun r => ((r.score : Int) : ℚ))).foldl (fun a b => a + b) 0)
            / ((store.filter (fun r => r.titleId == tid)).length : ℚ)))) ∧
    (∀ titleId2 authorId : Nat, ∀ txt : String, ∀ score : Int, ∀ newId pd : Nat,
      (createReview store titleId2 authorId txt score newId pd).2 = Outcome.ok →
      average_rating (createReview store titleId2 authorId txt score newId pd).1 tid =
        average_rating
          (store ++ [{ id := newId, titleId := titleId2, authorId := authorId,
                       text := txt, score := score, pub_date := pd }]) tid) := by
  have hiff : (store.filter (fun r => r.titleId == tid)).map (fun r => r.score) = [] ↔
      ∀ r ∈ store, r.titleId ≠ tid := by
    rw [List.map_eq_nil_iff, List.filter_eq_nil_iff]
    simp
  refine ⟨?_, ?_, ?_⟩
  · constructor
    · intro hnone
      by_cases hf : (store.filter (fun r => r.titleId == tid)).map (fun r => r.score) = []
      · exact hiff.mp hf
      · unfold average_rating at hnone
        rw [if_neg hf] at hnone
        exact absurd hnone (by simp)
    · intro hall
      unfold average_rating
      rw [if_pos (hiff.mpr hall)]
  · intro hex
    have hne : ¬((store.filter (fun r => r.titleId == tid)).map (fun r => r.score) = []) := by
      intro hf
      rcases hex with ⟨r, hr, hrt⟩
      exact (hiff.mp hf) r hr hrt
    unfold average_rating
    rw [if_neg hne]
    rw [List.sum_eq_foldl, List.length_map]
  · intro titleId2 authorId txt score newId pd hok
    unfold createReview at hok ⊢
    by_cases hv : validScore score
    · by_cases hdup : store.any (fun r => r.titleId == titleId2 && r.authorId == authorId)
      · simp [hv, hdup] at hok
      · simp [hv, hdup]
    · simp [hv] at hok

/-- Witness for average_rating_spec: with the single stored review of
score 8 for title 3, the aggregate is the rounded mean of that one
score. -/
theorem average_rating_spec_witness :
    average_rating [goodReview] 3 =
      some (round
        (((([goodReview].filter (fun r => r.titleId == 3)).map
            (fun r => ((r.score : Int) : ℚ))).foldl (fun a b => a + b) 0)
          / (([goodReview].filter (fun r => r.titleId == 3)).length : ℚ))) ∧
    average_rating [goodReview] 3 = some 8 := by
  constructor
  · exact (average_rating_spec [goodReview] 3).2.1
      ⟨goodReview, by simp, by norm_num [goodReview]⟩
  · show average_rating [goodReview] 3 = some 8
    norm_num [average_rating, goodReview, round_eq]

/- CategoryViewSet delete overrides, api/views.py lines 121-129, and the
router binding from api/urls.py. -/

/-- Handler bodies reachable on the category viewset: the list, create
and destroy handlers inherited through ListCreateDeleteViewSet, and the
two textually identical delete overrides written in the class body. -/
inductive CatHandler
  | listHandler
  | createHandler
  | destroyHandler
  | customDelete1
  | customDelete2
deriving DecidableEq, Repr

/-- Python class-body construction: the defs are folded into the class
namespace in textual order, a later def with the same name replacing the
earlier one. -/
def classNamespace (defs : List (String × CatHandler)) : List (String × CatHandler) :=
  defs.foldl (fun ns d => (ns.filter (fun e => !(e.1 == d.1))) ++ [d]) []

/-- Method definitions of CategoryViewSet in source order: the inherited
action handlers, then the two duplicate delete overrides of api/views.py
lines 121-129. -/
def categoryViewSetDefs : List (String × CatHandler) :=
  [("list", CatHandler.listHandler),
   ("create", CatHandler.createHandler),
   ("destroy", CatHandler.destroyHandler),
   ("delete", CatHandler.customDelete1),
   ("delete", CatHandler.customDelete2)]

/-- Modelled from the spec: the web-routing layer is an external
collaborator (api/mixins.py and the framework router are not among the
sources).  The router registration in api/urls.py generates two category
routes whose HTTP methods are bound to viewset ACTION names: the
collection route binds get to list and post to create, the detail route
(keyed by slug, the lookup_field) binds delete to destroy; a viewset only
supports list, create and destroy here (create/list/delete only, spec
4.3).  A request is dispatched to the class-namespace entry named by the
bound action, never by the HTTP method name itself. -/
def categoryRouteMaps : List (List (String × String)) :=
  [[("get", "list"), ("post", "create")],
   [("get", "retrieve"), ("delete", "destroy")]]

/-- Dispatch of an HTTP method on one category route: look the bound
action up in the route map, then look that action name up in the class
namespace. -/
def dispatchCategory (routeMap : List (String × String)) (httpMethod : String) :
    Option CatHandler :=
  (routeMap.lookup httpMethod).bind
    (fun act => (classNamespace categoryViewSetDefs).lookup act)

/-- A successful association-list lookup returns one of the stored
values. -/
theorem lookup_mem_values {β : Type} (l : List (String × β)) (a : String) (b : β)
    (h : l.lookup a = some b) : b ∈ l.map Prod.snd := by
  induction l with
  | nil => simp [List.lookup] at h
  | cons p t ih =>
      obtain ⟨k, v⟩ := p
      rw [List.lookup] at h
      by_cases hk : (a == k) = true
      · simp only [hk] at h
        simp only [List.map_cons, List.mem_cons]
        exact Or.inl (Option.some.inj h).symm
      · simp only [Bool.not_eq_true] at hk
        simp only [hk] at h
        simp only [List.map_cons, List.mem_cons]
        exact Or.inr (ih h)

/-- C8: the duplicated delete overrides are dead code.  In the class
namespace the second textual def shadows the first, and no route of the
category registration ever binds an HTTP method to the action name
"delete", so neither override body is ever dispatched: for every HTTP
method on either route the invoked handler is one of the standard list,
create and destroy handlers, and the DELETE verb on the detail route
lands exactly on the inherited destroy (standard delete-by-slug, gated by
IsAdminOrReadOnly per the permission_classes wiring, so admin-only). -/
theorem category_delete_override_dead :
    ((classNamespace categoryViewSetDefs).lookup "delete" =
      some CatHandler.customDelete2) ∧
    (∀ routeMap ∈ categoryRouteMaps, ∀ m : String, ∀ h : CatHandler,
      dispatchCategory routeMap m = some h →
        h ≠ CatHandler.customDelete1 ∧ h ≠ CatHandler.customDelete2) ∧
    dispatchCategory [("get", "retrieve"), ("delete", "destroy")] "delete" =
      some CatHandler.destroyHandler ∧
    (∀ actor : Option User,
      canPerform actor ViewAction.delete Resource.category = true →
        ∃ u, actor = some u ∧ u.is_admin = true) := by
  refine ⟨by decide, ?_, by decide, ?_⟩
  · intro routeMap hroute m h hdisp
    unfold dispatchCategory at hdisp
    rcases hmem : routeMap.lookup m with _ | act
    · rw [hmem, Option.none_bind] at hdisp
      exact absurd hdisp (by simp)
    · rw [hmem, Option.some_bind] at hdisp
      fin_cases hroute
      all_goals
        have hvals := lookup_mem_values _ _ _ hmem
        fin_cases hvals
      · rw [(by decide : (classNamespace categoryViewSetDefs).lookup "list" =
            some CatHandler.listHandler)] at hdisp
        rw [← Option.some.inj hdisp]
        decide
      · rw [(by decide : (classNamespace categoryViewSetDefs).lookup "create" =
            some CatHandler.createHandler)] at hdisp
        rw [← Option.some.inj hdisp]
        decide
      · rw [(by decide : (classNamespace categoryViewSetDefs).lookup "retrieve" =
            (none : Option CatHandler))] at hdisp
        exact absurd hdisp (by simp)
      · rw [(by decide : (classNamespace categoryViewSetDefs).lookup "destroy" =
            some CatHandler.destroyHandler)] at hdisp
        rw [← Option.some.inj hdisp]
        decide
  · intro actor hcan
    cases actor with
    | none => simp [canPerform, isAdminOrReadOnly, isSafe] at hcan
    | some u =>
        refine ⟨u, rfl, ?_⟩
        simpa [canPerform, isAdminOrReadOnly, isSafe] using hcan

/-- Witness for category_delete_override_dead: the DELETE verb on the
detail route dispatches to the inherited destroy handler, not to a custom
override body. -/
theorem category_delete_override_dead_witness :
    CatHandler.destroyHandler ≠ CatHandler.customDelete1 ∧
    CatHandler.destroyHandler ≠ CatHandler.customDelete2 :=
  category_delete_override_dead.2.1
    [("get", "retrieve"), ("delete", "destroy")] (by decide)
    "delete" CatHandler.destroyHandler (by decide)
